import Mathlib

/-
  Verification development for the CustomOvenControl Arduino sketch
  (src/CustomOvenControl.ino).  The sketch is a bang-bang oven controller:
  a state machine over six states driven once per `loop()` cycle by the
  sampled temperature, the keypad, and a one-second countdown.

  Shallow embedding: the global mutable variables of the sketch become the
  fields of `OvenSt`; one `loop()` iteration becomes the pure function
  `loopCycle`, which takes the per-cycle environment (`Env`: the sampled
  temperature, the keypad event, the current `millis()` value) and returns
  the new state together with the trace of display/buzzer side effects
  (`List Ev`).  The sketch re-samples the temperature at every use inside a
  cycle; following the spec's tie-break policy we model one sample per
  cycle, held constant across the branches of that cycle.
-/

namespace CustomOvenControl

/-- Oven states, one per `#define` state constant of the sketch
(`INPUT_PHASE`, `HEATING`, `COOLING`, `BAKING`, `END_OF_BAKING`,
`VENTILATION`). -/
inductive OvenState where
  | inputPhase
  | heating
  | cooling
  | baking
  | endOfBaking
  | ventilation
  deriving DecidableEq, Repr

/-- Levels of the six output pins the control logic writes:
pins 52/50/48 are the three heating elements (priority order 1→2→3),
pins 22/24 form the tri-state fan driver, pin 26 is the buzzer.
`true` is HIGH, `false` is LOW. -/
structure Pins where
  pin52 : Bool
  pin50 : Bool
  pin48 : Bool
  pin22 : Bool
  pin24 : Bool
  pin26 : Bool
  deriving DecidableEq, Repr

/-- Observable side effects of one cycle other than pin-state updates:
LCD operations, buzzer writes and the blocking delays of the alarm loop. -/
inductive Ev where
  | lcdSetCursor (col row : Nat)
  | lcdPrintStr (s : String)
  | lcdPrintInt (n : Int)
  | lcdPrintChar (c : Char)
  | lcdClear
  | write26 (high : Bool)
  | delayMs (ms : Nat)
  deriving DecidableEq, Repr

/-- The sketch's global mutable variables relevant to control logic:
`ovenState`, `inputString`, `inputTemperature`, `inputTime`,
`tempOrTime` (0 = temperature entry, 1 = time entry), `startTime1`
(the 1-second timing reference), plus the retained output pin levels. -/
structure OvenSt where
  ovenState : OvenState
  inputString : String
  inputTemperature : Int
  inputTime : Int
  tempOrTime : Int
  startTime1 : Int
  pins : Pins
  deriving DecidableEq, Repr

/-- Per-cycle inputs from the outside world: the sampled average
temperature (`calculateAverageTemperature()`), the keypad event
(`customKeypad.getKey()`, `none` when no key), and `millis()`. -/
structure Env where
  temp : Int
  key : Option Char
  now : Int
  deriving DecidableEq, Repr

/-- Models Arduino `String::toInt` (i.e. `atol`) on the digit-only
strings that `readInputs` accumulates: the decimal value of the digits. -/
def strToInt (s : String) : Int :=
  s.data.foldl (fun acc c => acc * 10 + ((c.toNat : Int) - 48)) 0

/-- `activateHeatingElements(char numElements)`: a switch over 0..3 with
no default case, so any other value writes nothing. -/
def activateHeatingElements (numElements : Int) (p : Pins) : Pins :=
  if numElements = 0 then
    { p with pin52 := false, pin50 := false, pin48 := false }
  else if numElements = 1 then
    { p with pin52 := true, pin50 := false, pin48 := false }
  else if numElements = 2 then
    { p with pin52 := true, pin50 := true, pin48 := false }
  else if numElements = 3 then
    { p with pin52 := true, pin50 := true, pin48 := true }
  else p

/-- `turnFanClockwise()`: pin22 HIGH, pin24 LOW (fan forward). -/
def turnFanClockwise (p : Pins) : Pins :=
  { p with pin22 := true, pin24 := false }

/-- `turnOffFan()`: both fan pins LOW. -/
def turnOffFan (p : Pins) : Pins :=
  { p with pin22 := false, pin24 := false }

/-- `turnFanAntiClockwise()`: pin22 LOW, pin24 HIGH (fan reverse). -/
def turnFanAntiClockwise (p : Pins) : Pins :=
  { p with pin22 := false, pin24 := true }

/-- The status block each perform function prints: state label on line 1,
then `Temp:<t> Time:<time>` on line 2. -/
def statusHdr (label : String) (t time : Int) : List Ev :=
  [Ev.lcdSetCursor 0 0, Ev.lcdPrintStr label, Ev.lcdSetCursor 0 1,
   Ev.lcdPrintStr "Temp:", Ev.lcdPrintInt t, Ev.lcdPrintStr " Time:",
   Ev.lcdPrintInt time]

/-- `readInputs()`: two-phase keypad entry.  Digits are appended to
`inputString` and echoed; on the terminator key a non-empty string is
parsed and stored (temperature first, then time); in the time phase the
terminator also resets `startTime1` to `millis()` before the emptiness
check.  Confirming the time moves to `HEATING`. -/
def readInputs (st : OvenSt) (env : Env) : OvenSt × List Ev :=
  if st.tempOrTime = 0 then
    match env.key with
    | none => (st, [])
    | some k =>
      if '0' ≤ k ∧ k ≤ '9' then
        ({ st with inputString := st.inputString.push k }, [Ev.lcdPrintChar k])
      else if k = '#' then
        if st.inputString.length > 0 then
          ({ st with inputTemperature := strToInt st.inputString,
                     inputString := "", tempOrTime := 1 },
           [Ev.lcdClear, Ev.lcdPrintStr "Enter time:"])
        else (st, [])
      else (st, [])
  else if st.tempOrTime = 1 then
    match env.key with
    | none => (st, [])
    | some k =>
      if '0' ≤ k ∧ k ≤ '9' then
        ({ st with inputString := st.inputString.push k }, [Ev.lcdPrintChar k])
      else if k = '#' then
        let st1 := { st with startTime1 := env.now }
        if st.inputString.length > 0 then
          ({ st1 with inputTime := strToInt st.inputString,
                      inputString := "", ovenState := OvenState.heating,
                      tempOrTime := 0 },
           [Ev.lcdClear])
        else (st1, [])
      else (st, [])
  else (st, [])

/-- `performHeating()`: below target, fan forward and element count from
the deficit (≥30 → 3, ≥20 → 2, else 1); above target+5, fan off and go to
`COOLING` (the element pins are not written in this branch); otherwise go
to `BAKING`. -/
def performHeating (st : OvenSt) (env : Env) : OvenSt × List Ev :=
  let hdr := statusHdr "HEATING" env.temp st.inputTime
  if env.temp < st.inputTemperature then
    let p1 := turnFanClockwise st.pins
    let p2 :=
      if st.inputTemperature - env.temp ≥ 30 then activateHeatingElements 3 p1
      else if st.inputTemperature - env.temp ≥ 20 then activateHeatingElements 2 p1
      else activateHeatingElements 1 p1
    ({ st with pins := p2 }, hdr)
  else if env.temp > st.inputTemperature + 5 then
    ({ st with pins := turnOffFan st.pins, ovenState := OvenState.cooling },
     hdr ++ [Ev.lcdClear])
  else
    ({ st with ovenState := OvenState.baking }, hdr ++ [Ev.lcdClear])

/-- `performCooling()`: above target+5, fan reverse and power 0; below
target, fan off and back to `HEATING`; otherwise to `BAKING`. -/
def performCooling (st : OvenSt) (env : Env) : OvenSt × List Ev :=
  let hdr := statusHdr "COOLING" env.temp st.inputTime
  if env.temp > st.inputTemperature + 5 then
    ({ st with pins := activateHeatingElements 0 (turnFanAntiClockwise st.pins) },
     hdr)
  else if env.temp < st.inputTemperature then
    ({ st with pins := turnOffFan st.pins, ovenState := OvenState.heating },
     hdr ++ [Ev.lcdClear])
  else
    ({ st with ovenState := OvenState.baking }, hdr ++ [Ev.lcdClear])

/-- `performBaking()`: fan off and power 0 every cycle; above target+5 go
to `COOLING`, below target go to `HEATING`, otherwise stay in `BAKING`. -/
def performBaking (st : OvenSt) (env : Env) : OvenSt × List Ev :=
  let hdr := statusHdr "BAKING" env.temp st.inputTime
  let p := activateHeatingElements 0 (turnOffFan st.pins)
  if env.temp > st.inputTemperature + 5 then
    ({ st with pins := p, ovenState := OvenState.cooling }, hdr ++ [Ev.lcdClear])
  else if env.temp < st.inputTemperature then
    ({ st with pins := p, ovenState := OvenState.heating }, hdr ++ [Ev.lcdClear])
  else
    ({ st with pins := p }, hdr)

/-- The five-pulse alarm loop of `performVentilation()`: pin 26 HIGH,
delay 300 ms, pin 26 LOW, delay 300 ms, five times over. -/
def alarmPulses : List Ev :=
  (List.replicate 5
    [Ev.write26 true, Ev.delayMs 300, Ev.write26 false, Ev.delayMs 300]).flatten

/-- `performVentilation()`: at 30 degrees or more, fan reverse and power 0
(state stays `VENTILATION`); below 30, the blocking five-pulse alarm runs
and the state becomes `END_OF_BAKING`. -/
def performVentilation (st : OvenSt) (env : Env) : OvenSt × List Ev :=
  let hdr := statusHdr "VENTILATION" env.temp st.inputTime
  if env.temp ≥ 30 then
    ({ st with pins := activateHeatingElements 0 (turnFanAntiClockwise st.pins) },
     hdr)
  else
    ({ st with ovenState := OvenState.endOfBaking,
               pins := { st.pins with pin26 := false } },
     hdr ++ alarmPulses ++ [Ev.lcdClear])

/-- `performEndOfBaking()`: fan off and power 0; on a key event whose code
is at or above the terminator key (`customKey >= '#'`) the display is
cleared, the temperature prompt reprinted, and the state reset to
`INPUT_PHASE`. -/
def performEndOfBaking (st : OvenSt) (env : Env) : OvenSt × List Ev :=
  let p := activateHeatingElements 0 (turnOffFan st.pins)
  let hdr := statusHdr "END_OF_BAKING" env.temp st.inputTime
  match env.key with
  | none => ({ st with pins := p }, hdr)
  | some k =>
    if '#' ≤ k then
      ({ st with pins := p, ovenState := OvenState.inputPhase },
       hdr ++ [Ev.lcdClear, Ev.lcdPrintStr "Enter temp: "])
    else ({ st with pins := p }, hdr)

/-- The state dispatch switch at the top of `loop()`. -/
def dispatch (st : OvenSt) (env : Env) : OvenSt × List Ev :=
  match st.ovenState with
  | OvenState.inputPhase => readInputs st env
  | OvenState.heating => performHeating st env
  | OvenState.cooling => performCooling st env
  | OvenState.baking => performBaking st env
  | OvenState.ventilation => performVentilation st env
  | OvenState.endOfBaking => performEndOfBaking st env

/-- The countdown block at the bottom of `loop()`: only when the state is
not `INPUT_PHASE` and `inputTime > 0`, and at least 1000 ms have elapsed
since `startTime1`, the countdown decrements; hitting exactly 0 forces
`VENTILATION`. -/
def updateTimer (st : OvenSt) (env : Env) : OvenSt :=
  if st.ovenState ≠ OvenState.inputPhase ∧ st.inputTime > 0 then
    if env.now - st.startTime1 ≥ 1000 then
      let st1 := { st with startTime1 := env.now, inputTime := st.inputTime - 1 }
      if st1.inputTime = 0 then { st1 with ovenState := OvenState.ventilation }
      else st1
    else st
  else st

/-- One full `loop()` iteration: state dispatch, then the countdown
update. -/
def loopCycle (st : OvenSt) (env : Env) : OvenSt × List Ev :=
  let r := dispatch st env
  (updateTimer r.1 env, r.2)

/-- The sixteen keys of the `hexaKeys` keymap, row by row. -/
def hexaKeysList : List Char :=
  ['1', '2', '3', 'A', '4', '5', '6', 'B', '7', '8', '9', 'C',
   '*', '0', '#', 'D']

/-- In the `HEATING` state the dispatch switch runs `performHeating`. -/
theorem dispatch_eq_heating (st : OvenSt) (env : Env)
    (h : st.ovenState = OvenState.heating) :
    dispatch st env = performHeating st env := by
  unfold dispatch
  rw [h]

/-- In the `BAKING` state the dispatch switch runs `performBaking`. -/
theorem dispatch_eq_baking (st : OvenSt) (env : Env)
    (h : st.ovenState = OvenState.baking) :
    dispatch st env = performBaking st env := by
  unfold dispatch
  rw [h]

/-- In the `VENTILATION` state the dispatch switch runs
`performVentilation`. -/
theorem dispatch_eq_ventilation (st : OvenSt) (env : Env)
    (h : st.ovenState = OvenState.ventilation) :
    dispatch st env = performVentilation st env := by
  unfold dispatch
  rw [h]

/-- In the `END_OF_BAKING` state the dispatch switch runs
`performEndOfBaking`. -/
theorem dispatch_eq_endOfBaking (st : OvenSt) (env : Env)
    (h : st.ovenState = OvenState.endOfBaking) :
    dispatch st env = performEndOfBaking st env := by
  unfold dispatch
  rw [h]

/-- In the `INPUT_PHASE` state the dispatch switch runs `readInputs`. -/
theorem dispatch_eq_inputPhase (st : OvenSt) (env : Env)
    (h : st.ovenState = OvenState.inputPhase) :
    dispatch st env = readInputs st env := by
  unfold dispatch
  rw [h]

/-- C1: in the Heating state with sampled temperature strictly below the
target, the cycle drives the fan forward (pin22 HIGH, pin24 LOW) and
activates heating elements from the deficit d = S - T: d ≥ 30 → all three
elements; 20 ≤ d < 30 → elements 1 and 2; 0 < d < 20 → element 1 only. -/
theorem heating_power_selection (st : OvenSt) (env : Env)
    (hs : st.ovenState = OvenState.heating)
    (ht : env.temp < st.inputTemperature) :
    ((dispatch st env).1.pins.pin22 = true ∧
      (dispatch st env).1.pins.pin24 = false) ∧
    (st.inputTemperature - env.temp ≥ 30 →
      (dispatch st env).1.pins.pin52 = true ∧
      (dispatch st env).1.pins.pin50 = true ∧
      (dispatch st env).1.pins.pin48 = true) ∧
    (20 ≤ st.inputTemperature - env.temp ∧ st.inputTemperature - env.temp < 30 →
      (dispatch st env).1.pins.pin52 = true ∧
      (dispatch st env).1.pins.pin50 = true ∧
      (dispatch st env).1.pins.pin48 = false) ∧
    (0 < st.inputTemperature - env.temp ∧ st.inputTemperature - env.temp < 20 →
      (dispatch st env).1.pins.pin52 = true ∧
      (dispatch st env).1.pins.pin50 = false ∧
      (dispatch st env).1.pins.pin48 = false) := by
  rw [dispatch_eq_heating st env hs]
  simp only [performHeating, if_pos ht, turnFanClockwise, activateHeatingElements]
  split_ifs with h30 h20 <;> simp <;> omega

/-- C1 witness (Scenario 1): S = 180, T = 150, deficit 30 → fan forward
and all three elements active. -/
theorem heating_power_selection_witness :
    ((dispatch
        { ovenState := OvenState.heating, inputString := "",
          inputTemperature := 180, inputTime := 60, tempOrTime := 0,
          startTime1 := 0,
          pins := { pin52 := false, pin50 := false, pin48 := false,
                    pin22 := false, pin24 := false, pin26 := false } }
        { temp := 150, key := none, now := 100 }).1.pins.pin52 = true ∧
      (dispatch
        { ovenState := OvenState.heating, inputString := "",
          inputTemperature := 180, inputTime := 60, tempOrTime := 0,
          startTime1 := 0,
          pins := { pin52 := false, pin50 := false, pin48 := false,
                    pin22 := false, pin24 := false, pin26 := false } }
        { temp := 150, key := none, now := 100 }).1.pins.pin50 = true ∧
      (dispatch
        { ovenState := OvenState.heating, inputString := "",
          inputTemperature := 180, inputTime := 60, tempOrTime := 0,
          startTime1 := 0,
          pins := { pin52 := false, pin50 := false, pin48 := false,
                    pin22 := false, pin24 := false, pin26 := false } }
        { temp := 150, key := none, now := 100 }).1.pins.pin48 = true) :=
  (heating_power_selection _ _ rfl (by decide)).2.1 (by decide)

/-- C10: calling `activateHeatingElements` with a level outside
{0, 1, 2, 3} leaves all output pins unchanged (the switch has no default
case). -/
theorem activateHeatingElements_frame (n : Int) (p : Pins)
    (h0 : n ≠ 0) (h1 : n ≠ 1) (h2 : n ≠ 2) (h3 : n ≠ 3) :
    activateHeatingElements n p = p := by
  simp [activateHeatingElements, h0, h1, h2, h3]

/-- C10 witness: level 4 leaves a concrete pin assignment unchanged. -/
theorem activateHeatingElements_frame_witness :
    activateHeatingElements 4
      { pin52 := true, pin50 := false, pin48 := true,
        pin22 := false, pin24 := true, pin26 := false } =
      { pin52 := true, pin50 := false, pin48 := true,
        pin22 := false, pin24 := true, pin26 := false } :=
  activateHeatingElements_frame 4 _ (by decide) (by decide) (by decide)
    (by decide)

/-- `performHeating` never writes `inputTime`. -/
theorem performHeating_inputTime (st : OvenSt) (env : Env) :
    (performHeating st env).1.inputTime = st.inputTime := by
  simp only [performHeating]
  split_ifs <;> rfl

/-- `performCooling` never writes `inputTime`. -/
theorem performCooling_inputTime (st : OvenSt) (env : Env) :
    (performCooling st env).1.inputTime = st.inputTime := by
  simp only [performCooling]
  split_ifs <;> rfl

/-- `performBaking` never writes `inputTime`. -/
theorem performBaking_inputTime (st : OvenSt) (env : Env) :
    (performBaking st env).1.inputTime = st.inputTime := by
  simp only [performBaking]
  split_ifs <;> rfl

/-- `performVentilation` never writes `inputTime`. -/
theorem performVentilation_inputTime (st : OvenSt) (env : Env) :
    (performVentilation st env).1.inputTime = st.inputTime := by
  simp only [performVentilation]
  split_ifs <;> rfl

/-- `performEndOfBaking` never writes `inputTime`. -/
theorem performEndOfBaking_inputTime (st : OvenSt) (env : Env) :
    (performEndOfBaking st env).1.inputTime = st.inputTime := by
  rcases hk : env.key with _ | k
  · simp only [performEndOfBaking, hk]
  · simp only [performEndOfBaking, hk]
    split_ifs <;> rfl

/-- Outside `INPUT_PHASE`, the dispatch switch never writes `inputTime`. -/
theorem dispatch_inputTime (st : OvenSt) (env : Env)
    (h : st.ovenState ≠ OvenState.inputPhase) :
    (dispatch st env).1.inputTime = st.inputTime := by
  unfold dispatch
  cases hs : st.ovenState
  case inputPhase => exact absurd hs h
  case heating => exact performHeating_inputTime st env
  case cooling => exact performCooling_inputTime st env
  case baking => exact performBaking_inputTime st env
  case ventilation => exact performVentilation_inputTime st env
  case endOfBaking => exact performEndOfBaking_inputTime st env

/-- C2: in any cycle whose countdown update decrements `inputTime` from 1
to exactly 0 while the post-dispatch state is not `INPUT_PHASE`, the state
after the cycle is `VENTILATION`, whatever the state was before. -/
theorem countdown_zero_forces_venting (st : OvenSt) (env : Env)
    (hstate : (dispatch st env).1.ovenState ≠ OvenState.inputPhase)
    (htime : (dispatch st env).1.inputTime = 1)
    (helapsed : env.now - (dispatch st env).1.startTime1 ≥ 1000) :
    (loopCycle st env).1.ovenState = OvenState.ventilation ∧
    (loopCycle st env).1.inputTime = 0 := by
  simp only [loopCycle, updateTimer]
  split_ifs with h1 h2 <;> simp_all

/-- C2 witness (Scenario 4): a Baking state with one second left and an
elapsed second transitions to `VENTILATION` with countdown 0. -/
theorem countdown_zero_forces_venting_witness :
    ((loopCycle
        { ovenState := OvenState.baking, inputString := "",
          inputTemperature := 180, inputTime := 1, tempOrTime := 0,
          startTime1 := 0,
          pins := { pin52 := false, pin50 := false, pin48 := false,
                    pin22 := false, pin24 := false, pin26 := false } }
        { temp := 182, key := none, now := 1000 }).1.ovenState =
      OvenState.ventilation ∧
      (loopCycle
        { ovenState := OvenState.baking, inputString := "",
          inputTemperature := 180, inputTime := 1, tempOrTime := 0,
          startTime1 := 0,
          pins := { pin52 := false, pin50 := false, pin48 := false,
                    pin22 := false, pin24 := false, pin26 := false } }
        { temp := 182, key := none, now := 1000 }).1.inputTime = 0) :=
  countdown_zero_forces_venting _ _ (by decide) (by decide) (by decide)

/-- C8: in every cycle starting outside `INPUT_PHASE`, the countdown never
increases, and it stays non-negative when it was non-negative. -/
theorem countdown_nonneg_monotone (st : OvenSt) (env : Env)
    (h : st.ovenState ≠ OvenState.inputPhase) :
    (loopCycle st env).1.inputTime ≤ st.inputTime ∧
    (0 ≤ st.inputTime → 0 ≤ (loopCycle st env).1.inputTime) := by
  have hd : (dispatch st env).1.inputTime = st.inputTime :=
    dispatch_inputTime st env h
  simp only [loopCycle, updateTimer]
  split_ifs with h1 h2 h3 <;> simp_all <;> omega

/-- C8 witness: a Heating cycle with countdown 5 and an elapsed second
leaves the countdown at 4 (≤ 5 and non-negative). -/
theorem countdown_nonneg_monotone_witness :
    ((loopCycle
        { ovenState := OvenState.heating, inputString := "",
          inputTemperature := 180, inputTime := 5, tempOrTime := 0,
          startTime1 := 0,
          pins := { pin52 := false, pin50 := false, pin48 := false,
                    pin22 := false, pin24 := false, pin26 := false } }
        { temp := 150, key := none, now := 1500 }).1.inputTime ≤ 5 ∧
      (0 ≤ (5 : Int) → 0 ≤ (loopCycle
        { ovenState := OvenState.heating, inputString := "",
          inputTemperature := 180, inputTime := 5, tempOrTime := 0,
          startTime1 := 0,
          pins := { pin52 := false, pin50 := false, pin48 := false,
                    pin22 := false, pin24 := false, pin26 := false } }
        { temp := 150, key := none, now := 1500 }).1.inputTime)) :=
  countdown_nonneg_monotone _ _ (by decide)

/-- C4 counterexample: starting a Heating cycle at S = 180, T = 170
energizes element 1 (pin 52 HIGH); the next cycle at T = 186 (> S + 5)
transitions to Cooling with pin 52 still HIGH, so the heating-element
outputs are not all LOW after the overshoot cycle. -/
theorem heating_overshoot_counterexample :
    (loopCycle
        { ovenState := OvenState.heating, inputString := "",
          inputTemperature := 180, inputTime := 100, tempOrTime := 0,
          startTime1 := 0,
          pins := { pin52 := false, pin50 := false, pin48 := false,
                    pin22 := false, pin24 := false, pin26 := false } }
        { temp := 170, key := none, now := 100 }).1 =
      { ovenState := OvenState.heating, inputString := "",
        inputTemperature := 180, inputTime := 100, tempOrTime := 0,
        startTime1 := 0,
        pins := { pin52 := true, pin50 := false, pin48 := false,
                  pin22 := true, pin24 := false, pin26 := false } } ∧
    (loopCycle
        { ovenState := OvenState.heating, inputString := "",
          inputTemperature := 180, inputTime := 100, tempOrTime := 0,
          startTime1 := 0,
          pins := { pin52 := true, pin50 := false, pin48 := false,
                    pin22 := true, pin24 := false, pin26 := false } }
        { temp := 186, key := none, now := 200 }).1.ovenState =
      OvenState.cooling ∧
    (loopCycle
        { ovenState := OvenState.heating, inputString := "",
          inputTemperature := 180, inputTime := 100, tempOrTime := 0,
          startTime1 := 0,
          pins := { pin52 := true, pin50 := false, pin48 := false,
                    pin22 := true, pin24 := false, pin26 := false } }
        { temp := 186, key := none, now := 200 }).1.pins.pin52 = true := by
  decide

/-- C4 amended: in the Heating state with T > S + 5 the cycle stops the
fan and transitions to Cooling, but leaves the three heating-element
output pins exactly as they were (the branch never calls
`activateHeatingElements`). -/
theorem heating_overshoot_to_cooling (st : OvenSt) (env : Env)
    (hs : st.ovenState = OvenState.heating)
    (ht : env.temp > st.inputTemperature + 5) :
    (dispatch st env).1.ovenState = OvenState.cooling ∧
    (dispatch st env).1.pins.pin22 = false ∧
    (dispatch st env).1.pins.pin24 = false ∧
    (dispatch st env).1.pins.pin52 = st.pins.pin52 ∧
    (dispatch st env).1.pins.pin50 = st.pins.pin50 ∧
    (dispatch st env).1.pins.pin48 = st.pins.pin48 := by
  rw [dispatch_eq_heating st env hs]
  have hnlt : ¬ env.temp < st.inputTemperature := by omega
  simp [performHeating, hnlt, ht, turnOffFan]

/-- C4 amended witness (Scenario 2): S = 180, T = 186 with element 1 on:
the cycle yields Cooling, fan off, element pins untouched. -/
theorem heating_overshoot_to_cooling_witness :
    ((dispatch
        { ovenState := OvenState.heating, inputString := "",
          inputTemperature := 180, inputTime := 100, tempOrTime := 0,
          startTime1 := 0,
          pins := { pin52 := true, pin50 := false, pin48 := false,
                    pin22 := true, pin24 := false, pin26 := false } }
        { temp := 186, key := none, now := 200 }).1.ovenState =
      OvenState.cooling ∧
      (dispatch
        { ovenState := OvenState.heating, inputString := "",
          inputTemperature := 180, inputTime := 100, tempOrTime := 0,
          startTime1 := 0,
          pins := { pin52 := true, pin50 := false, pin48 := false,
                    pin22 := true, pin24 := false, pin26 := false } }
        { temp := 186, key := none, now := 200 }).1.pins.pin22 = false) := by
  have h := heating_overshoot_to_cooling
    { ovenState := OvenState.heating, inputString := "",
      inputTemperature := 180, inputTime := 100, tempOrTime := 0,
      startTime1 := 0,
      pins := { pin52 := true, pin50 := false, pin48 := false,
                pin22 := true, pin24 := false, pin26 := false } }
    { temp := 186, key := none, now := 200 } rfl (by decide)
  exact ⟨h.1, h.2.1⟩

/-- C5: in the Ventilation state, T ≥ 30 keeps the state at Ventilation
with the fan in reverse and all heating elements off; T < 30 emits exactly
five buzzer pulses (on 300 ms, off 300 ms each) and moves to
`END_OF_BAKING`. -/
theorem ventilation_behavior (st : OvenSt) (env : Env)
    (hs : st.ovenState = OvenState.ventilation) :
    (env.temp ≥ 30 →
      (dispatch st env).1.ovenState = OvenState.ventilation ∧
      (dispatch st env).1.pins.pin22 = false ∧
      (dispatch st env).1.pins.pin24 = true ∧
      (dispatch st env).1.pins.pin52 = false ∧
      (dispatch st env).1.pins.pin50 = false ∧
      (dispatch st env).1.pins.pin48 = false) ∧
    (env.temp < 30 →
      (dispatch st env).1.ovenState = OvenState.endOfBaking ∧
      (dispatch st env).2 =
        statusHdr "VENTILATION" env.temp st.inputTime ++ alarmPulses ++
          [Ev.lcdClear] ∧
      ((dispatch st env).2.filter
        (fun e => decide (e = Ev.write26 true))).length = 5 ∧
      ((dispatch st env).2.filter
        (fun e => decide (e = Ev.write26 false))).length = 5 ∧
      ((dispatch st env).2.filter
        (fun e => decide (e = Ev.delayMs 300))).length = 10) := by
  rw [dispatch_eq_ventilation st env hs]
  constructor
  · intro h
    simp [performVentilation, h, hs, turnFanAntiClockwise, activateHeatingElements]
  · intro h
    have hnge : ¬ env.temp ≥ 30 := by omega
    simp [performVentilation, hnge, statusHdr, alarmPulses]

/-- C5 witness (Scenario 5): Ventilation at T = 25 emits the five-pulse
alarm and finishes. -/
theorem ventilation_behavior_witness :
    ((dispatch
        { ovenState := OvenState.ventilation, inputString := "",
          inputTemperature := 180, inputTime := 0, tempOrTime := 0,
          startTime1 := 0,
          pins := { pin52 := false, pin50 := false, pin48 := false,
                    pin22 := false, pin24 := true, pin26 := false } }
        { temp := 25, key := none, now := 5000 }).1.ovenState =
      OvenState.endOfBaking ∧
      ((dispatch
        { ovenState := OvenState.ventilation, inputString := "",
          inputTemperature := 180, inputTime := 0, tempOrTime := 0,
          startTime1 := 0,
          pins := { pin52 := false, pin50 := false, pin48 := false,
                    pin22 := false, pin24 := true, pin26 := false } }
        { temp := 25, key := none, now := 5000 }).2.filter
          (fun e => decide (e = Ev.write26 true))).length = 5) := by
  have h := (ventilation_behavior
    { ovenState := OvenState.ventilation, inputString := "",
      inputTemperature := 180, inputTime := 0, tempOrTime := 0,
      startTime1 := 0,
      pins := { pin52 := false, pin50 := false, pin48 := false,
                pin22 := false, pin24 := true, pin26 := false } }
    { temp := 25, key := none, now := 5000 } rfl).2 (by decide)
  exact ⟨h.1, h.2.2.1⟩

/-- C6: a Baking cycle with T in the holding band [S, S+5] stays in
Baking, turns the fan off and all elements off, and running the cycle
again from its own result with the same inputs returns exactly the same
state and the same event trace (idempotence). -/
theorem baking_idempotent (st : OvenSt) (env : Env)
    (hs : st.ovenState = OvenState.baking)
    (h1 : st.inputTemperature ≤ env.temp)
    (h2 : env.temp ≤ st.inputTemperature + 5) :
    (performBaking st env).1.ovenState = OvenState.baking ∧
    (performBaking st env).1.pins.pin22 = false ∧
    (performBaking st env).1.pins.pin24 = false ∧
    (performBaking st env).1.pins.pin52 = false ∧
    (performBaking st env).1.pins.pin50 = false ∧
    (performBaking st env).1.pins.pin48 = false ∧
    performBaking (performBaking st env).1 env = performBaking st env := by
  have hngt : ¬ env.temp > st.inputTemperature + 5 := by omega
  have hnlt : ¬ env.temp < st.inputTemperature := by omega
  simp [performBaking, hngt, hnlt, turnOffFan, activateHeatingElements, hs]

/-- C6 witness (Scenario 3): S = 180, T = 182 in the band: Baking holds
with fan and elements off, idempotently. -/
theorem baking_idempotent_witness :
    ((performBaking
        { ovenState := OvenState.baking, inputString := "",
          inputTemperature := 180, inputTime := 30, tempOrTime := 0,
          startTime1 := 0,
          pins := { pin52 := true, pin50 := false, pin48 := false,
                    pin22 := true, pin24 := false, pin26 := false } }
        { temp := 182, key := none, now := 700 }).1.ovenState =
      OvenState.baking ∧
      performBaking
        (performBaking
          { ovenState := OvenState.baking, inputString := "",
            inputTemperature := 180, inputTime := 30, tempOrTime := 0,
            startTime1 := 0,
            pins := { pin52 := true, pin50 := false, pin48 := false,
                      pin22 := true, pin24 := false, pin26 := false } }
          { temp := 182, key := none, now := 700 }).1
        { temp := 182, key := none, now := 700 } =
      performBaking
        { ovenState := OvenState.baking, inputString := "",
          inputTemperature := 180, inputTime := 30, tempOrTime := 0,
          startTime1 := 0,
          pins := { pin52 := true, pin50 := false, pin48 := false,
                    pin22 := true, pin24 := false, pin26 := false } }
        { temp := 182, key := none, now := 700 }) := by
  have h := baking_idempotent
    { ovenState := OvenState.baking, inputString := "",
      inputTemperature := 180, inputTime := 30, tempOrTime := 0,
      startTime1 := 0,
      pins := { pin52 := true, pin50 := false, pin48 := false,
                pin22 := true, pin24 := false, pin26 := false } }
    { temp := 182, key := none, now := 700 } rfl (by decide) (by decide)
  exact ⟨h.1, h.2.2.2.2.2.2⟩

/-- From a Heating state, one dispatch never yields `VENTILATION`: the
Heating branch only stays in Heating or moves to Cooling or Baking. -/
theorem performHeating_not_venting (s : OvenSt) (e : Env)
    (hs : s.ovenState = OvenState.heating) :
    (performHeating s e).1.ovenState ≠ OvenState.ventilation := by
  simp only [performHeating]
  split_ifs <;> simp [hs]

/-- A full cycle from a Heating state with countdown 0 never reaches
`VENTILATION`: the countdown block is skipped because it requires
`inputTime > 0`. -/
theorem loopCycle_heating_zero_not_venting (s : OvenSt) (e : Env)
    (hs : s.ovenState = OvenState.heating) (h0 : s.inputTime = 0) :
    (loopCycle s e).1.ovenState ≠ OvenState.ventilation := by
  have hit : (performHeating s e).1.inputTime = 0 := by
    rw [performHeating_inputTime]
    exact h0
  have hnv := performHeating_not_venting s e hs
  simp only [loopCycle, dispatch_eq_heating s e hs, updateTimer]
  split_ifs with hg hth
  · obtain ⟨hg1, hg2⟩ := hg
    omega
  · obtain ⟨hg1, hg2⟩ := hg
    omega
  · exact hnv
  · exact hnv

/-- C3 counterexample: entering temperature 100 and then confirming
duration "0" is accepted (state Heating, countdown 0), but the next cycle
at T = 50 stays in Heating — it does not transition to Venting, because
the countdown block requires `inputTime > 0`. -/
theorem duration_zero_counterexample :
    (loopCycle
        { ovenState := OvenState.inputPhase, inputString := "0",
          inputTemperature := 100, inputTime := 5, tempOrTime := 1,
          startTime1 := 0,
          pins := { pin52 := false, pin50 := false, pin48 := false,
                    pin22 := false, pin24 := false, pin26 := false } }
        { temp := 20, key := some '#', now := 500 }).1 =
      { ovenState := OvenState.heating, inputString := "",
        inputTemperature := 100, inputTime := 0, tempOrTime := 0,
        startTime1 := 500,
        pins := { pin52 := false, pin50 := false, pin48 := false,
                  pin22 := false, pin24 := false, pin26 := false } } ∧
    (loopCycle
        { ovenState := OvenState.heating, inputString := "",
          inputTemperature := 100, inputTime := 0, tempOrTime := 0,
          startTime1 := 500,
          pins := { pin52 := false, pin50 := false, pin48 := false,
                    pin22 := false, pin24 := false, pin26 := false } }
        { temp := 50, key := none, now := 2000 }).1.ovenState =
      OvenState.heating := by
  decide

/-- C3 amended: confirming a duration that parses to zero is accepted
as-is (no validation) and the state machine enters Heating with countdown
0; but because the countdown block requires `inputTime > 0`, the next
cycle never transitions to Venting. -/
theorem duration_zero_accepted_never_vents (st : OvenSt) (env : Env)
    (hs : st.ovenState = OvenState.inputPhase)
    (hphase : st.tempOrTime = 1)
    (hkey : env.key = some '#')
    (hne : st.inputString.length > 0)
    (hzero : strToInt st.inputString = 0) :
    (loopCycle st env).1.ovenState = OvenState.heating ∧
    (loopCycle st env).1.inputTime = 0 ∧
    ∀ env2 : Env, (loopCycle (loopCycle st env).1 env2).1.ovenState ≠
      OvenState.ventilation := by
  have h1 : (loopCycle st env).1 =
      { st with startTime1 := env.now, inputTime := 0, inputString := "",
                ovenState := OvenState.heating, tempOrTime := 0 } := by
    simp [loopCycle, dispatch_eq_inputPhase st env hs, readInputs, hphase,
          hkey, hne, hzero, updateTimer]
  rw [h1]
  exact ⟨rfl, rfl, fun env2 =>
    loopCycle_heating_zero_not_venting _ env2 rfl rfl⟩

/-- C3 amended witness: confirming "0" as the duration from a concrete
input state enters Heating with countdown 0, and a following cycle at
T = 50 is not Venting. -/
theorem duration_zero_accepted_never_vents_witness :
    ((loopCycle
        { ovenState := OvenState.inputPhase, inputString := "0",
          inputTemperature := 100, inputTime := 5, tempOrTime := 1,
          startTime1 := 0,
          pins := { pin52 := false, pin50 := false, pin48 := false,
                    pin22 := false, pin24 := false, pin26 := false } }
        { temp := 20, key := some '#', now := 500 }).1.ovenState =
      OvenState.heating ∧
      (loopCycle
        { ovenState := OvenState.inputPhase, inputString := "0",
          inputTemperature := 100, inputTime := 5, tempOrTime := 1,
          startTime1 := 0,
          pins := { pin52 := false, pin50 := false, pin48 := false,
                    pin22 := false, pin24 := false, pin26 := false } }
        { temp := 20, key := some '#', now := 500 }).1.inputTime = 0 ∧
      (loopCycle
        (loopCycle
          { ovenState := OvenState.inputPhase, inputString := "0",
            inputTemperature := 100, inputTime := 5, tempOrTime := 1,
            startTime1 := 0,
            pins := { pin52 := false, pin50 := false, pin48 := false,
                      pin22 := false, pin24 := false, pin26 := false } }
          { temp := 20, key := some '#', now := 500 }).1
        { temp := 50, key := none, now := 2000 }).1.ovenState ≠
      OvenState.ventilation) := by
  have h := duration_zero_accepted_never_vents
    { ovenState := OvenState.inputPhase, inputString := "0",
      inputTemperature := 100, inputTime := 5, tempOrTime := 1,
      startTime1 := 0,
      pins := { pin52 := false, pin50 := false, pin48 := false,
                pin22 := false, pin24 := false, pin26 := false } }
    { temp := 20, key := some '#', now := 500 } rfl rfl rfl (by decide)
    (by decide)
  exact ⟨h.1, h.2.1, h.2.2 { temp := 50, key := none, now := 2000 }⟩

/-- C7: in the `END_OF_BAKING` state, every one of the sixteen keys of
the implemented keymap passes the `customKey >= '#'` comparison, so any
key event resets the state to `INPUT_PHASE`, clears the display and
reprints the temperature prompt. -/
theorem finished_any_key_resets (k : Char) (st : OvenSt) (env : Env)
    (hk : k ∈ hexaKeysList)
    (hs : st.ovenState = OvenState.endOfBaking)
    (hkey : env.key = some k) :
    (dispatch st env).1.ovenState = OvenState.inputPhase ∧
    (dispatch st env).2 =
      statusHdr "END_OF_BAKING" env.temp st.inputTime ++
        [Ev.lcdClear, Ev.lcdPrintStr "Enter temp: "] := by
  rw [dispatch_eq_endOfBaking st env hs]
  have hge : '#' ≤ k := by fin_cases hk <;> decide
  simp [performEndOfBaking, hkey, hge]

/-- C7 witness (Scenario 6): in `END_OF_BAKING`, pressing the unused key
star resets to `INPUT_PHASE` with the display cleared and re-prompted. -/
theorem finished_any_key_resets_witness :
    ((dispatch
        { ovenState := OvenState.endOfBaking, inputString := "",
          inputTemperature := 180, inputTime := 0, tempOrTime := 0,
          startTime1 := 0,
          pins := { pin52 := false, pin50 := false, pin48 := false,
                    pin22 := false, pin24 := false, pin26 := false } }
        { temp := 25, key := some '*', now := 9000 }).1.ovenState =
      OvenState.inputPhase ∧
      (dispatch
        { ovenState := OvenState.endOfBaking, inputString := "",
          inputTemperature := 180, inputTime := 0, tempOrTime := 0,
          startTime1 := 0,
          pins := { pin52 := false, pin50 := false, pin48 := false,
                    pin22 := false, pin24 := false, pin26 := false } }
        { temp := 25, key := some '*', now := 9000 }).2 =
      statusHdr "END_OF_BAKING" 25 0 ++
        [Ev.lcdClear, Ev.lcdPrintStr "Enter temp: "]) :=
  finished_any_key_resets '*'
    { ovenState := OvenState.endOfBaking, inputString := "",
      inputTemperature := 180, inputTime := 0, tempOrTime := 0,
      startTime1 := 0,
      pins := { pin52 := false, pin50 := false, pin48 := false,
                pin22 := false, pin24 := false, pin26 := false } }
    { temp := 25, key := some '*', now := 9000 } (by decide) rfl rfl

/-- C9: during input collection, a terminator event with an empty pending
string changes neither the oven state, nor the entry phase, nor the stored
temperature or duration, nor the pending string — in every entry phase. -/
theorem empty_terminator_noop (st : OvenSt) (env : Env)
    (hs : st.ovenState = OvenState.inputPhase)
    (hkey : env.key = some '#')
    (hempty : st.inputString = "") :
    (readInputs st env).1.ovenState = st.ovenState ∧
    (readInputs st env).1.tempOrTime = st.tempOrTime ∧
    (readInputs st env).1.inputTemperature = st.inputTemperature ∧
    (readInputs st env).1.inputTime = st.inputTime ∧
    (readInputs st env).1.inputString = st.inputString := by
  simp only [readInputs, hkey, hempty]
  split_ifs <;> simp_all

/-- C9 witness: a terminator with empty pending string in the
duration-entry phase leaves state, phase, temperature and duration
unchanged. -/
theorem empty_terminator_noop_witness :
    ((readInputs
        { ovenState := OvenState.inputPhase, inputString := "",
          inputTemperature := 150, inputTime := 42, tempOrTime := 1,
          startTime1 := 0,
          pins := { pin52 := false, pin50 := false, pin48 := false,
                    pin22 := false, pin24 := false, pin26 := false } }
        { temp := 20, key := some '#', now := 500 }).1.ovenState =
      OvenState.inputPhase ∧
      (readInputs
        { ovenState := OvenState.inputPhase, inputString := "",
          inputTemperature := 150, inputTime := 42, tempOrTime := 1,
          startTime1 := 0,
          pins := { pin52 := false, pin50 := false, pin48 := false,
                    pin22 := false, pin24 := false, pin26 := false } }
        { temp := 20, key := some '#', now := 500 }).1.tempOrTime = 1 ∧
      (readInputs
        { ovenState := OvenState.inputPhase, inputString := "",
          inputTemperature := 150, inputTime := 42, tempOrTime := 1,
          startTime1 := 0,
          pins := { pin52 := false, pin50 := false, pin48 := false,
                    pin22 := false, pin24 := false, pin26 := false } }
        { temp := 20, key := some '#', now := 500 }).1.inputTemperature =
      150 ∧
      (readInputs
        { ovenState := OvenState.inputPhase, inputString := "",
          inputTemperature := 150, inputTime := 42, tempOrTime := 1,
          startTime1 := 0,
          pins := { pin52 := false, pin50 := false, pin48 := false,
                    pin22 := false, pin24 := false, pin26 := false } }
        { temp := 20, key := some '#', now := 500 }).1.inputTime = 42) := by
  have h := empty_terminator_noop
    { ovenState := OvenState.inputPhase, inputString := "",
      inputTemperature := 150, inputTime := 42, tempOrTime := 1,
      startTime1 := 0,
      pins := { pin52 := false, pin50 := false, pin48 := false,
                pin22 := false, pin24 := false, pin26 := false } }
    { temp := 20, key := some '#', now := 500 } rfl rfl rfl
  exact ⟨h.1, h.2.1, h.2.2.1, h.2.2.2.1⟩

end CustomOvenControl
